import Mathlib

/-
Verification development for the data-universe repository.

Shallow embedding of:
  - src/scraping/x/twitter_custom_scraper.py
      (TwitterCustomScraper.validate, _best_effort_parse_tweet_from_html,
       _validate_tweet)
  - src/custom_crawler.py (generate_scraping_config)
  - src/scraping/provider.py (ScraperProvider, DEFAULT_FACTORIES)

Python strings are modelled as Lean String values; the Python operations
used by the code (slicing s[:-1], s[1:], the substring test with the
keyword in, and endswith) are modelled on the underlying character lists.
Imported library capabilities that are not part of this repository
(playwright fetching, BeautifulSoup lookups, datetime.strptime) and
repository modules not present under src (common.data, scraping.x.model,
scraping.x.utils, scraping.scraper) enter the embedding as explicit
function parameters, so every theorem quantifies over their behaviour.
-/

/-- PyErr models a Python exception value at the granularity the embedded
code distinguishes: a TypeError raised by a builtin called with wrong
arguments, and any other exception. -/
inductive PyErr where
  | typeError
  | exn
deriving DecidableEq

/-- Datetime models a Python datetime.datetime value: calendar fields plus
a flag recording whether a UTC tzinfo is attached. -/
structure Datetime where
  year : Nat
  month : Nat
  day : Nat
  hour : Nat
  minute : Nat
  second : Nat
  microsecond : Nat
  hasUtcTz : Bool
deriving DecidableEq

/-- Datetime.replace second=s, as in the Python code. -/
def Datetime.replaceSecond (d : Datetime) (s : Nat) : Datetime :=
  ⟨d.year, d.month, d.day, d.hour, d.minute, s, d.microsecond, d.hasUtcTz⟩

/-- Datetime.replace microsecond=m, as in the Python code. -/
def Datetime.replaceMicrosecond (d : Datetime) (m : Nat) : Datetime :=
  ⟨d.year, d.month, d.day, d.hour, d.minute, d.second, m, d.hasUtcTz⟩

/-- Datetime.replace tzinfo=utc, as in the Python code. -/
def Datetime.replaceTzUtc (d : Datetime) : Datetime :=
  ⟨d.year, d.month, d.day, d.hour, d.minute, d.second, d.microsecond, true⟩

/-- Modelled from the spec: DataEntity (common/data.py is not under src).
Attributes follow section 3 of the spec: source identifier, URI, optional
label, minute-resolution timestamp, opaque content payload, and declared
content size in bytes. -/
structure DataEntity where
  uri : String
  datetimeV : Datetime
  source : String
  label : Option String
  content : String
  content_size_bytes : Nat
deriving DecidableEq

/-- Modelled from the spec: XContent (scraping/x/model.py is not under
src). Fields are the ones the parser in src populates: author handle,
body text, canonical URL, timestamp, ordered tag list. -/
structure XContent where
  username : String
  text : String
  url : String
  timestamp : Datetime
  tweet_hashtags : List String
deriving DecidableEq

/-- Replace only the text field of an XContent value. -/
def XContent.withText (x : XContent) (t : String) : XContent :=
  ⟨x.username, t, x.url, x.timestamp, x.tweet_hashtags⟩

/-- Modelled from the spec: ValidationResult (scraping/scraper.py is not
under src). Record with is_valid, reason and content_size_bytes_validated,
per section 3 of the spec. -/
structure ValidationResult where
  is_valid : Bool
  reason : String
  content_size_bytes_validated : Nat
deriving DecidableEq

/-- Executable substring test on character lists: needle occurs somewhere
inside haystack. Models the Python expression needle in haystack. -/
def isSubListOf (needle : List Char) : List Char → Bool
  | [] => List.isPrefixOf needle []
  | c :: rest => List.isPrefixOf needle (c :: rest) || isSubListOf needle rest

/-- Python needle in haystack on strings. -/
def pyIn (needle haystack : String) : Bool :=
  isSubListOf needle.data haystack.data

/-- Python s.endswith(marker). -/
def pyEndsWith (s marker : String) : Bool :=
  List.isSuffixOf marker.data s.data

/-- Python s[:-1]: the string without its last character. -/
def pyDropLast (s : String) : String :=
  String.mk s.data.dropLast

/-- Python s[1:]: the string without its first character. -/
def pyDropFirst (s : String) : String :=
  String.mk (s.data.drop 1)

/-- The guard of the elision-tolerance branch of _validate_tweet
(src/scraping/x/twitter_custom_scraper.py lines 180-184):
tweet.text != tweet_to_verify.text and
tweet_to_verify.text.endswith ellipsis and
tweet_to_verify.text[:-1] in tweet.text. -/
def elisionApplies (tweet_text stored_text : String) : Bool :=
  (!(tweet_text == stored_text)) &&
    pyEndsWith stored_text "…" &&
    pyIn (pyDropLast stored_text) tweet_text

/-- Operations of repository modules that are not under src
(XContent.from_data_entity, XContent.to_data_entity,
DataEntity.are_non_content_fields_equal). The code under src calls them
through this record, so theorems quantify over their behaviour. -/
structure CommonOps where
  from_data_entity : DataEntity → Except PyErr XContent
  to_data_entity : XContent → Except PyErr DataEntity
  are_non_content_fields_equal : DataEntity → DataEntity → Bool

/-- The elision-tolerance adjustment of _validate_tweet: when the guard
holds, the comparison proceeds with the stored (shorter) text adopted
into the freshly parsed tweet. -/
def applyElision (tweet : XContent) (stored_text : String) : XContent :=
  if elisionApplies tweet.text stored_text then
    tweet.withText stored_text
  else
    tweet

/-- TwitterCustomScraper._validate_tweet
(src/scraping/x/twitter_custom_scraper.py lines 164-226). The local
rebinding of the tweet variable after the elision branch is made explicit
with applyElision. -/
def _validate_tweet (ops : CommonOps) (tweet : XContent) (entity : DataEntity) :
    ValidationResult :=
  match ops.from_data_entity entity with
  | Except.error _ =>
    ⟨false, "Failed to decode data entity", entity.content_size_bytes⟩
  | Except.ok tweet_to_verify =>
    let tweet1 := applyElision tweet tweet_to_verify.text
    if tweet_to_verify ≠ tweet1 then
      ⟨false, "Tweet does not match", entity.content_size_bytes⟩
    else
      match ops.to_data_entity tweet1 with
      | Except.error _ =>
        ⟨false, "Failed to convert XContent to DataEntity.",
          entity.content_size_bytes⟩
      | Except.ok tweet_entity =>
        if !(ops.are_non_content_fields_equal tweet_entity entity) then
          ⟨false, "The DataEntity fields are incorrect based on the tweet.",
            entity.content_size_bytes⟩
        else
          ⟨true, "Good job, you honest miner!", entity.content_size_bytes⟩

/-- TextElem models one span or img node returned by
tweet_text_element.find_all in the parser: an optional alt attribute and
the node text (the text of a node defaults to the empty string). -/
structure TextElem where
  alt : Option String
  text : String
deriving DecidableEq

/-- TweetSoup models the BeautifulSoup view of the fetched tweet markup,
restricted to the lookups the parser performs. tweetTextElement is the
div with data-testid tweetText together with its span and img children
(none models soup.find returning None, so that iterating raises).
timeDatetimeAttr is the datetime attribute of the time node (none models
a missing time node or attribute, so that subscripting raises).
hashtagAnchorTexts is the list of texts of the anchors whose href
contains ashtag_click, in document order. -/
structure TweetSoup where
  tweetTextElement : Option (List TextElem)
  timeDatetimeAttr : Option String
  hashtagAnchorTexts : List String
deriving DecidableEq

/-- The text-accumulation loop of the parser
(src/scraping/x/twitter_custom_scraper.py lines 112-121): for each span
or img child, append the alt attribute when present, then always append
the node text. -/
def buildTweetText (elems : List TextElem) : String :=
  List.foldl
    (fun acc e =>
      acc ++ (match e.alt with | some a => a | none => "") ++ e.text)
    "" elems

/-- The hashtag canonicalization of the parser
(src/scraping/x/twitter_custom_scraper.py line 147): each collected tag
becomes the character # followed by the tag without its first
character. -/
def corrected_hashtags (hashtags : List String) : List String :=
  hashtags.map (fun hashtag => "#" ++ pyDropFirst hashtag)

/-- The body of the try block of _best_effort_parse_tweet_from_html after
the username has been extracted, as an explicit exception-returning
computation. strptime models dt.datetime.strptime with the fixed format
string; it is a parameter because datetime is an external library. -/
def parseTweetBody (strptime : String → Option Datetime) (soup : TweetSoup)
    (username url : String) : Except PyErr XContent :=
  match soup.tweetTextElement with
  | none => Except.error PyErr.exn
  | some elems =>
    let tweet_text := buildTweetText elems
    match soup.timeDatetimeAttr with
    | none => Except.error PyErr.exn
    | some ds =>
      match strptime ds with
      | none => Except.error PyErr.exn
      | some d =>
        let timestamp := ((d.replaceSecond 0).replaceMicrosecond 0).replaceTzUtc
        Except.ok
          ⟨username, tweet_text, url, timestamp,
            corrected_hashtags soup.hashtagAnchorTexts⟩

/-- TwitterCustomScraper._best_effort_parse_tweet_from_html
(src/scraping/x/twitter_custom_scraper.py lines 88-161). getUser models
get_user_from_twitter_url from scraping/x/utils.py, which is not under
src. A None username returns None from inside the try block; any
exception in the rest of the body is caught and the initial None is
returned. -/
def _best_effort_parse_tweet_from_html (getUser : String → Option String)
    (strptime : String → Option Datetime) (soup : TweetSoup) (url : String) :
    Option XContent :=
  match getUser url with
  | none => none
  | some username =>
    match parseTweetBody strptime soup username url with
    | Except.ok t => some t
    | Except.error _ => none

/-- The reason string of the fetch-failure branch of validate. -/
def fetchFailReason : String :=
  "Failed to get Tweet. This can happen if the URI is invalid, or playwright is having an issue."

/-- TwitterCustomScraper.validate
(src/scraping/x/twitter_custom_scraper.py lines 19-80), one loop step per
entity. urlValid models is_valid_twitter_url from scraping/x/utils.py
(not under src); fetch models the playwright block, returning the soup
view of the fetched markup or an exception. The result pairs the results
list with the list of URIs for which a fetch was attempted, in order; a
Python exception escaping the call is modelled as Except.error.

In the invalid-URI branch the source reads
  results.append(ValidationResult(is_valid=False, reason="Invalid URI."),
                 content_size_bytes_validated=entity.content_size_bytes)
so the keyword argument is passed to list.append, not to
ValidationResult; list.append accepts no keyword arguments, hence this
branch raises a TypeError that no handler catches. -/
def validateLoop (urlValid : String → Bool) (getUser : String → Option String)
    (strptime : String → Option Datetime)
    (fetch : String → Except Unit TweetSoup) (ops : CommonOps) :
    List DataEntity → Except PyErr (List ValidationResult × List String)
  | [] => Except.ok ([], [])
  | entity :: rest =>
    if !(urlValid entity.uri) then
      Except.error PyErr.typeError
    else
      match fetch entity.uri with
      | Except.error _ =>
        match validateLoop urlValid getUser strptime fetch ops rest with
        | Except.error e => Except.error e
        | Except.ok (rs, log) =>
          Except.ok
            (⟨false, fetchFailReason, entity.content_size_bytes⟩ :: rs,
              entity.uri :: log)
      | Except.ok soup =>
        match _best_effort_parse_tweet_from_html getUser strptime soup entity.uri with
        | none =>
          match validateLoop urlValid getUser strptime fetch ops rest with
          | Except.error e => Except.error e
          | Except.ok (rs, log) =>
            Except.ok
              (⟨false, "Tweet not found or is invalid.",
                  entity.content_size_bytes⟩ :: rs,
                entity.uri :: log)
        | some tweet =>
          match validateLoop urlValid getUser strptime fetch ops rest with
          | Except.error e => Except.error e
          | Except.ok (rs, log) =>
            Except.ok (_validate_tweet ops tweet entity :: rs, entity.uri :: log)

/-- TwitterCustomScraper.validate entry point: the early return for an
empty entities list coincides with the empty case of the loop. -/
def validate (urlValid : String → Bool) (getUser : String → Option String)
    (strptime : String → Option Datetime)
    (fetch : String → Except Unit TweetSoup) (ops : CommonOps)
    (entities : List DataEntity) :
    Except PyErr (List ValidationResult × List String) :=
  validateLoop urlValid getUser strptime fetch ops entities

/-- One entry of labels_to_scrape in the generated configuration
(src/custom_crawler.py). -/
structure LabelsToScrape where
  label_choices : List String
  max_data_entities : Nat
deriving DecidableEq

/-- One entry of scraper_configs in the generated configuration. -/
structure ScraperConfigEntry where
  scraper_id : String
  cadence_seconds : Nat
  labels_to_scrape : List LabelsToScrape
deriving DecidableEq

/-- The dictionary returned by generate_scraping_config. -/
structure ScrapingConfigDict where
  scraper_configs : List ScraperConfigEntry
deriving DecidableEq

/-- Python sub_reddits[i : i+k]. -/
def pySlice (l : List String) (i k : Nat) : List String :=
  (l.drop i).take k

/-- generate_scraping_config (src/custom_crawler.py lines 10-37).
Integer division by num_steps = 0 raises a ZeroDivisionError, modelled as
Except.error. In the non-degenerate branch the source builds
sub_reddits[i : i+labels_per_steps] for i in range(num_steps). -/
def generate_scraping_config (sub_reddits : List String)
    (cascade_seconds max_entities num_steps : Nat) :
    Except PyErr ScrapingConfigDict :=
  if num_steps = 0 then
    Except.error PyErr.exn
  else
    let labels_per_steps := sub_reddits.length / num_steps
    let labels_to_scrape :=
      if labels_per_steps = 0 then
        [LabelsToScrape.mk sub_reddits max_entities]
      else
        (List.range num_steps).map
          (fun i => LabelsToScrape.mk (pySlice sub_reddits i labels_per_steps) max_entities)
    Except.ok ⟨[⟨"Reddit.custom", cascade_seconds, labels_to_scrape⟩]⟩

/-- ScraperId members referenced by src/scraping/provider.py
(scraping/scraper.py itself is not under src). -/
inductive ScraperId where
  | REDDIT_LITE
  | X_FLASH
  | REDDIT_CUSTOM
  | X_MICROWORLDS
deriving DecidableEq

/-- The credential mapping bound to one strategy instance:
client_id, client_secret, username, password. -/
structure RedditConfig where
  client_id : String
  client_secret : String
  username : String
  password : String
deriving DecidableEq

/-- Modelled from the spec: concrete Scraper instances
(RedditLiteScraper, RedditCustomScraper, MicroworldsTwitterScraper are
not under src). A strategy instance is identified by its kind and, for
the credentialed Reddit variant, the credentials bound into it at
resolution time. -/
inductive Scraper where
  | RedditLiteScraper
  | MicroworldsTwitterScraper
  | RedditCustomScraper (creds : Option RedditConfig)
deriving DecidableEq

/-- A factory entry of the registry: the class stored in the factories
dictionary. -/
inductive Factory where
  | RedditLiteF
  | MicroworldsF
  | RedditCustomF
deriving DecidableEq

/-- Calling a factory with no arguments, as in self.factories[scraper_id](). -/
def Factory.call : Factory → Scraper
  | Factory.RedditLiteF => Scraper.RedditLiteScraper
  | Factory.MicroworldsF => Scraper.MicroworldsTwitterScraper
  | Factory.RedditCustomF => Scraper.RedditCustomScraper none

/-- Calling a factory with the four credential keyword arguments, as in
the REDDIT_CUSTOM branch of ScraperProvider.get. Only the credentialed
Reddit factory stores them. -/
def Factory.callWithCreds : Factory → RedditConfig → Scraper
  | Factory.RedditCustomF, c => Scraper.RedditCustomScraper (some c)
  | Factory.RedditLiteF, _ => Scraper.RedditLiteScraper
  | Factory.MicroworldsF, _ => Scraper.MicroworldsTwitterScraper

/-- Lookup in the factories dictionary. -/
def lookupFactory : List (ScraperId × Factory) → ScraperId → Option Factory
  | [], _ => none
  | (k, f) :: rest, scraper_id =>
    if k = scraper_id then some f else lookupFactory rest scraper_id

/-- DEFAULT_FACTORIES (src/scraping/provider.py lines 9-15): x.flash is
remapped to the microworlds scraper for backwards compatibility. -/
def DEFAULT_FACTORIES : List (ScraperId × Factory) :=
  [(ScraperId.REDDIT_LITE, Factory.RedditLiteF),
   (ScraperId.X_FLASH, Factory.MicroworldsF),
   (ScraperId.REDDIT_CUSTOM, Factory.RedditCustomF),
   (ScraperId.X_MICROWORLDS, Factory.MicroworldsF)]

/-- ScraperProvider (src/scraping/provider.py): the factories dictionary
and the optional reddit credential configuration given at construction.
An empty Python credential dictionary is falsy, so none also covers that
case. -/
structure ScraperProvider where
  factories : List (ScraperId × Factory)
  reddit_config : Option RedditConfig

/-- ScraperProvider.get (src/scraping/provider.py lines 29-40): assert
membership in the factories dictionary (an AssertionError is modelled as
Except.error), then bind credentials for the credentialed Reddit variant
when a config was supplied. -/
def ScraperProvider.get (p : ScraperProvider) (scraper_id : ScraperId) :
    Except String Scraper :=
  match lookupFactory p.factories scraper_id with
  | none => Except.error "Scraper id not supported."
  | some f =>
    match p.reddit_config with
    | some cfg =>
      if scraper_id = ScraperId.REDDIT_CUSTOM then
        Except.ok (f.callWithCreds cfg)
      else
        Except.ok f.call
    | none => Except.ok f.call

deriving instance DecidableEq for Except

/-- Modelled from the spec: the elision condition as amended — the
stored text differs from the fresh text, ends with the ellipsis marker,
and with that trailing marker removed occurs as a substring of the fresh
text. -/
def specElisionAmended (fresh stored : String) : Prop :=
  fresh ≠ stored ∧ ("…".data <:+ stored.data) ∧ ((pyDropLast stored).data <:+: fresh.data)

/-- Modelled from the spec: the elision condition as the original claim
words it — the stored text ends with the ellipsis marker and, with that
trailing marker removed, is a strict prefix of the fresh text. -/
def specElisionStrictPrefixCond (fresh stored : String) : Prop :=
  ("…".data <:+ stored.data) ∧
    ((pyDropLast stored).data <+: fresh.data) ∧ (pyDropLast stored).data ≠ fresh.data

/-- All label groups appearing in a generated configuration, in order. -/
def labelGroups (r : Except PyErr ScrapingConfigDict) : List (List String) :=
  match r with
  | Except.error _ => []
  | Except.ok cfg =>
    (cfg.scraper_configs.map
      (fun c => c.labels_to_scrape.map (fun g => g.label_choices))).flatten

/-- Ten candidate labels, the size used in the spec example. -/
def tenLabels : List String :=
  ["r0", "r1", "r2", "r3", "r4", "r5", "r6", "r7", "r8", "r9"]

/-- A concrete timestamp used by the evaluation theorems. -/
def demoTs : Datetime := ⟨2024, 1, 5, 12, 34, 0, 0, true⟩

/-- A concrete URI-shape check: exactly one URI is accepted. -/
def demoUrlValid : String → Bool :=
  fun u => u == "https://twitter.com/user/status/123"

/-- A concrete username extractor. -/
def demoGetUser : String → Option String := fun _ => some "@user"

/-- A concrete timestamp parser that always fails. -/
def demoStrptime : String → Option Datetime := fun _ => none

/-- A concrete fetch capability that always fails. -/
def demoFetchFail : String → Except Unit TweetSoup := fun _ => Except.error ()

/-- Concrete common operations that always fail. -/
def demoOps : CommonOps :=
  ⟨fun _ => Except.error PyErr.exn, fun _ => Except.error PyErr.exn, fun _ _ => false⟩

/-- A concrete entity whose URI fails the shape check. -/
def badUriEntity : DataEntity :=
  ⟨"https://twitter.com/no-status", demoTs, "X", none, "", 218⟩

/-- A concrete entity whose URI passes the shape check. -/
def goodUriEntity : DataEntity :=
  ⟨"https://twitter.com/user/status/123", demoTs, "X", none, "", 485⟩

/-- The stored content of the elision counterexample: text ending in the
ellipsis marker whose body occurs inside the fresh text but not as a
prefix of it. -/
def ceStored : XContent :=
  ⟨"@u", "abc…", "https://twitter.com/u/status/1", demoTs, []⟩

/-- The freshly parsed content of the elision counterexample. -/
def ceFresh : XContent :=
  ⟨"@u", "xabc", "https://twitter.com/u/status/1", demoTs, []⟩

/-- The entity of the elision counterexample. -/
def ceEntity : DataEntity :=
  ⟨"https://twitter.com/u/status/1", demoTs, "X", none, "", 42⟩

/-- Common operations for the elision counterexample: decoding yields the
stored content, re-encoding yields the entity, non-content fields agree. -/
def ceOps : CommonOps :=
  ⟨fun _ => Except.ok ceStored, fun _ => Except.ok ceEntity, fun _ _ => true⟩

/-- The stored content of the spec elision example, ending in the
ellipsis marker and a proper prefix of the fresh text. -/
def wStored : XContent :=
  ⟨"@u", "hello world…", "https://twitter.com/u/status/2", demoTs, []⟩

/-- The freshly parsed content of the spec elision example. -/
def wFresh : XContent :=
  ⟨"@u", "hello world, this is long", "https://twitter.com/u/status/2", demoTs, []⟩

/-- The entity of the spec elision example. -/
def wEntity : DataEntity :=
  ⟨"https://twitter.com/u/status/2", demoTs, "X", none, "", 485⟩

/-- Common operations for the spec elision example. -/
def wOps : CommonOps :=
  ⟨fun _ => Except.ok wStored, fun _ => Except.ok wEntity, fun _ _ => true⟩

/-- A concrete credential configuration. -/
def demoRedditConfig : RedditConfig := ⟨"id", "secret", "user", "pass"⟩

/-- The text field of an updated content value. -/
theorem text_withText (x : XContent) (t : String) : (x.withText t).text = t := rfl

/-- The elision guard never fires on equal texts. -/
theorem elisionApplies_self (s : String) : elisionApplies s s = false := by
  simp [elisionApplies]

/-- When the elision guard holds, the adjustment adopts the stored text. -/
theorem applyElision_pos (tweet : XContent) (st : String)
    (h : elisionApplies tweet.text st = true) :
    applyElision tweet st = tweet.withText st := by
  simp [applyElision, h]

/-- Adjusting a tweet that already carries the stored text changes nothing. -/
theorem applyElision_idem (tweet : XContent) (st : String) :
    applyElision (tweet.withText st) st = tweet.withText st := by
  simp [applyElision, text_withText, elisionApplies_self]

/-- The executable substring test agrees with the contiguous-sublist
relation. -/
theorem isSubListOf_infix (n : List Char) :
    ∀ h : List Char, isSubListOf n h = true ↔ n <:+: h := by
  intro h
  induction h with
  | nil => simp [isSubListOf, List.isPrefixOf_iff_prefix]
  | cons c r ih => simp [isSubListOf, List.isPrefixOf_iff_prefix, List.infix_cons_iff, ih]

/-- C1: the spec says validate returns one fully populated result per
input claim and never lets an exception escape the call boundary. The
code violates this: on an entity whose URI fails the shape check,
results.append is called with the keyword argument
content_size_bytes_validated, which list.append rejects, so a TypeError
escapes validate. This theorem evaluates the embedded validate at such an
input and shows the call raises instead of returning a result list. -/
theorem validate_invalid_uri_typeError_eval :
    validate demoUrlValid demoGetUser demoStrptime demoFetchFail demoOps [badUriEntity] =
      Except.error PyErr.typeError := by
  rfl

/-- C2: the spec says an entity with an unparsable URI yields an invalid
result with a locator reason and no fetch attempt. The code instead
raises a TypeError from the same branch (results.append called with a
keyword argument): for every choice of the URI check, the library
oracles and the remaining entities, as soon as the head entity fails the
URI check the whole call errors with a TypeError, for every fetch
capability, so no result is produced at all. -/
theorem validate_bad_locator_raises (urlValid : String → Bool)
    (getUser : String → Option String) (strptime : String → Option Datetime)
    (fetch : String → Except Unit TweetSoup) (ops : CommonOps)
    (e : DataEntity) (rest : List DataEntity)
    (h : urlValid e.uri = false) :
    validate urlValid getUser strptime fetch ops (e :: rest) =
      Except.error PyErr.typeError := by
  simp [validate, validateLoop, h]

/-- C2 witness: the general theorem applied at a concrete entity whose
URI fails the concrete shape check. -/
theorem validate_bad_locator_raises_witness :
    demoUrlValid badUriEntity.uri = false ∧
    validate demoUrlValid demoGetUser demoStrptime demoFetchFail demoOps [badUriEntity] =
      Except.error PyErr.typeError :=
  ⟨rfl, validate_bad_locator_raises demoUrlValid demoGetUser demoStrptime demoFetchFail
    demoOps badUriEntity [] rfl⟩

/-- C3 counterexample: the claim states that the two texts are treated as
equal if and only if the stored text ends with the ellipsis and, with
that marker removed, is a strict prefix of the fresh text. In the code
the third conjunct is a substring test, not a prefix test: with fresh
text xabc and stored text abc followed by the ellipsis, the guard fires
and the adjusted comparison succeeds end to end, although the de-elided
stored text is not a prefix of the fresh text. -/
theorem elision_substring_counterexample :
    elisionApplies ceFresh.text ceStored.text = true ∧
    ¬ specElisionStrictPrefixCond ceFresh.text ceStored.text ∧
    _validate_tweet ceOps ceFresh ceEntity =
      ⟨true, "Good job, you honest miner!", ceEntity.content_size_bytes⟩ := by
  refine ⟨by decide, ?_, by decide⟩
  unfold specElisionStrictPrefixCond
  decide

/-- C3 as amended: the two texts are treated as equal, by adopting the
stored text for the rest of the comparison, if and only if the stored
text differs from the fresh text, ends with the ellipsis character, and
with that trailing marker removed occurs as a substring of the fresh
text. Adoption is observable in _validate_tweet: when the guard holds,
validating the fresh tweet is the same as validating it with the stored
text adopted. -/
theorem elision_adoption_amended (ops : CommonOps) (tweet : XContent)
    (entity : DataEntity) (stored : XContent)
    (h1 : ops.from_data_entity entity = Except.ok stored) :
    (elisionApplies tweet.text stored.text = true ↔
      specElisionAmended tweet.text stored.text) ∧
    (elisionApplies tweet.text stored.text = true →
      _validate_tweet ops tweet entity =
        _validate_tweet ops (tweet.withText stored.text) entity) := by
  constructor
  · simp [elisionApplies, pyEndsWith, pyIn, specElisionAmended, Bool.and_eq_true,
      isSubListOf_infix, List.isSuffixOf_iff_suffix, and_assoc]
  · intro h2
    unfold _validate_tweet
    rw [h1]
    dsimp only
    rw [applyElision_pos tweet stored.text h2, applyElision_idem]

/-- C3 witness: the amended theorem applied at the spec example, fresh
text hello world, this is long against stored text hello world followed
by the ellipsis. -/
theorem elision_adoption_amended_witness :
    elisionApplies wFresh.text wStored.text = true ∧
    specElisionAmended wFresh.text wStored.text ∧
    _validate_tweet wOps wFresh wEntity =
      _validate_tweet wOps (wFresh.withText wStored.text) wEntity := by
  have h := elision_adoption_amended wOps wFresh wEntity wStored rfl
  refine ⟨by decide, h.1.mp (by decide), h.2 (by decide)⟩

/-- C4: the spec says the candidate labels are divided into contiguous,
pairwise-disjoint chunks of size floor(total/steps) that together cover
the candidate set. The code instead builds the overlapping windows
sub_reddits[i : i+k] for i in range(num_steps): with ten labels and
three steps the groups each have size three but share labels, and the
last five labels appear in no group, so the groups neither are disjoint
nor partition the candidates. This theorem evaluates the embedded
generator at that input. -/
theorem generate_scraping_config_overlapping_groups :
    labelGroups (generate_scraping_config tenLabels 30 100 3) =
      [["r0", "r1", "r2"], ["r1", "r2", "r3"], ["r2", "r3", "r4"]] ∧
    (labelGroups (generate_scraping_config tenLabels 30 100 3)).map List.length =
      [3, 3, 3] ∧
    "r1" ∈ (labelGroups (generate_scraping_config tenLabels 30 100 3)).getD 0 [] ∧
    "r1" ∈ (labelGroups (generate_scraping_config tenLabels 30 100 3)).getD 1 [] ∧
    "r9" ∈ tenLabels ∧
    ∀ g ∈ labelGroups (generate_scraping_config tenLabels 30 100 3), "r9" ∉ g := by
  decide

/-- C5: whenever floor(total/steps) is zero and steps is positive, the
generated configuration holds exactly one label group containing all
candidate labels, with the given cadence and quota. -/
theorem generate_scraping_config_degenerate_single_group
    (sub_reddits : List String) (cascade max_entities num_steps : Nat)
    (h1 : 0 < num_steps) (h2 : sub_reddits.length / num_steps = 0) :
    generate_scraping_config sub_reddits cascade max_entities num_steps =
      Except.ok ⟨[⟨"Reddit.custom", cascade, [⟨sub_reddits, max_entities⟩]⟩]⟩ := by
  unfold generate_scraping_config
  rw [if_neg (Nat.pos_iff_ne_zero.mp h1)]
  simp [h2]

/-- C5 witness: two labels and five steps collapse to a single group with
both labels, the spec example. -/
theorem generate_scraping_config_degenerate_single_group_witness :
    0 < 5 ∧ (["a", "b"] : List String).length / 5 = 0 ∧
    generate_scraping_config ["a", "b"] 30 100 5 =
      Except.ok ⟨[⟨"Reddit.custom", 30, [⟨["a", "b"], 100⟩]⟩]⟩ :=
  ⟨by decide, by decide,
    generate_scraping_config_degenerate_single_group ["a", "b"] 30 100 5
      (by decide) (by decide)⟩

/-- C6: for an entity whose URI passes the shape check, if the fetch of
that URI fails then validate records an invalid result carrying the
fetch-failure reason and the declared content size, and the fetch log
gains exactly one entry for that entity, so the fetch is attempted once
and never retried within the call. -/
theorem validate_fetch_failure_once (urlValid : String → Bool)
    (getUser : String → Option String) (strptime : String → Option Datetime)
    (fetch : String → Except Unit TweetSoup) (ops : CommonOps)
    (e : DataEntity) (rest : List DataEntity)
    (rs : List ValidationResult) (log : List String)
    (h1 : urlValid e.uri = true) (h2 : fetch e.uri = Except.error ())
    (h3 : validate urlValid getUser strptime fetch ops rest = Except.ok (rs, log)) :
    validate urlValid getUser strptime fetch ops (e :: rest) =
      Except.ok (⟨false, fetchFailReason, e.content_size_bytes⟩ :: rs, e.uri :: log) := by
  simp [validate, validateLoop, h1, h2] at h3 ⊢
  rw [h3]

/-- C6 witness: the theorem applied to a single entity with a passing URI
and a failing fetch; the log holds exactly that one URI. -/
theorem validate_fetch_failure_once_witness :
    demoUrlValid goodUriEntity.uri = true ∧
    demoFetchFail goodUriEntity.uri = Except.error () ∧
    validate demoUrlValid demoGetUser demoStrptime demoFetchFail demoOps [goodUriEntity] =
      Except.ok ([⟨false, fetchFailReason, goodUriEntity.content_size_bytes⟩],
        [goodUriEntity.uri]) :=
  ⟨rfl, rfl,
    validate_fetch_failure_once demoUrlValid demoGetUser demoStrptime demoFetchFail
      demoOps goodUriEntity [] [] [] rfl rfl rfl⟩

/-- C7: the structural parser either reports no content found, or every
extraction step succeeded and the returned content is fully populated
from those steps: the username from the URI, the concatenated text of
the span and img children, the originating URL, the parsed timestamp
with seconds and microseconds zeroed and the UTC zone attached, and the
canonicalized tags in document order. Exceptions of the parsing steps
never escape: each failing step lands in the no-content outcome. -/
theorem best_effort_parse_none_or_fully_populated (getUser : String → Option String)
    (strptime : String → Option Datetime) (soup : TweetSoup) (url : String) :
    _best_effort_parse_tweet_from_html getUser strptime soup url = none ∨
    ∃ u elems ds d,
      getUser url = some u ∧
      soup.tweetTextElement = some elems ∧
      soup.timeDatetimeAttr = some ds ∧
      strptime ds = some d ∧
      _best_effort_parse_tweet_from_html getUser strptime soup url =
        some ⟨u, buildTweetText elems, url,
          ((d.replaceSecond 0).replaceMicrosecond 0).replaceTzUtc,
          corrected_hashtags soup.hashtagAnchorTexts⟩ := by
  cases hu : getUser url with
  | none => exact Or.inl (by simp [_best_effort_parse_tweet_from_html, hu])
  | some u =>
    cases ht : soup.tweetTextElement with
    | none =>
      exact Or.inl (by simp [_best_effort_parse_tweet_from_html, parseTweetBody, hu, ht])
    | some elems =>
      cases hd : soup.timeDatetimeAttr with
      | none =>
        exact Or.inl
          (by simp [_best_effort_parse_tweet_from_html, parseTweetBody, hu, ht, hd])
      | some ds =>
        cases hs : strptime ds with
        | none =>
          exact Or.inl
            (by simp [_best_effort_parse_tweet_from_html, parseTweetBody, hu, ht, hd, hs])
        | some d =>
          exact Or.inr ⟨u, elems, ds, d, rfl, rfl, rfl, hs,
            by simp [_best_effort_parse_tweet_from_html, parseTweetBody, hu, ht, hd, hs]⟩

/-- C8: tag canonicalization keeps the length, maps the tag at every
position to the marker # followed by that tag without its first
character, hence preserves document order, and sends the example tags
with leading # and leading dollar to the same canonical form. -/
theorem corrected_hashtags_pointwise (tags : List String) (i : Nat) :
    (corrected_hashtags tags).length = tags.length ∧
    (corrected_hashtags tags)[i]? = (tags[i]?).map (fun t => "#" ++ pyDropFirst t) ∧
    corrected_hashtags ["#Foo", "$Foo"] = ["#Foo", "#Foo"] := by
  refine ⟨?_, ?_, by decide⟩
  · simp [corrected_hashtags]
  · simp [corrected_hashtags]

/-- C9: resolving an identifier missing from the factories mapping fails
with the configuration error; resolving any identifier present in the
mapping yields a strategy instance; and with the default factories and a
supplied credential configuration, the credentialed Reddit variant is
resolved with those credentials bound into the instance. -/
theorem scraper_provider_get_spec (p : ScraperProvider) (sid : ScraperId) :
    (lookupFactory p.factories sid = none →
      p.get sid = Except.error "Scraper id not supported.") ∧
    (∀ f, lookupFactory p.factories sid = some f → ∃ s, p.get sid = Except.ok s) ∧
    (∀ cfg : RedditConfig,
      (ScraperProvider.mk DEFAULT_FACTORIES (some cfg)).get ScraperId.REDDIT_CUSTOM =
        Except.ok (Scraper.RedditCustomScraper (some cfg))) := by
  refine ⟨fun h => by simp [ScraperProvider.get, h], fun f hf => ?_, fun cfg => by rfl⟩
  unfold ScraperProvider.get
  rw [hf]
  cases p.reddit_config with
  | none => exact ⟨f.call, rfl⟩
  | some cfg =>
    by_cases hid : sid = ScraperId.REDDIT_CUSTOM
    · exact ⟨f.callWithCreds cfg, by simp [hid]⟩
    · exact ⟨f.call, by simp [hid]⟩

/-- C9 witness: an empty registry rejects a known identifier with the
configuration error, the default registry resolves it, and the default
registry with credentials binds them into the credentialed Reddit
variant. -/
theorem scraper_provider_get_spec_witness :
    (ScraperProvider.mk [] none).get ScraperId.REDDIT_LITE =
      Except.error "Scraper id not supported." ∧
    (∃ s, (ScraperProvider.mk DEFAULT_FACTORIES none).get ScraperId.REDDIT_LITE =
      Except.ok s) ∧
    (ScraperProvider.mk DEFAULT_FACTORIES (some demoRedditConfig)).get
        ScraperId.REDDIT_CUSTOM =
      Except.ok (Scraper.RedditCustomScraper (some demoRedditConfig)) :=
  ⟨(scraper_provider_get_spec (ScraperProvider.mk [] none) ScraperId.REDDIT_LITE).1 rfl,
   (scraper_provider_get_spec (ScraperProvider.mk DEFAULT_FACTORIES none)
      ScraperId.REDDIT_LITE).2.1 Factory.RedditLiteF rfl,
   (scraper_provider_get_spec (ScraperProvider.mk DEFAULT_FACTORIES none)
      ScraperId.REDDIT_CUSTOM).2.2 demoRedditConfig⟩

/-- C10: on every branch of _validate_tweet — decode failure, content
mismatch, re-encoding failure, metadata mismatch, and the valid verdict —
the produced result carries content_size_bytes_validated equal to the
declared content size of the entity, for every behaviour of the decoded
and re-encoded content operations. -/
theorem validate_tweet_size_accounting (ops : CommonOps) (tweet : XContent)
    (entity : DataEntity) :
    (_validate_tweet ops tweet entity).content_size_bytes_validated =
      entity.content_size_bytes := by
  unfold _validate_tweet
  cases ops.from_data_entity entity with
  | error e => rfl
  | ok stored =>
    dsimp only
    split
    · rfl
    · cases ops.to_data_entity _ with
      | error e => rfl
      | ok te =>
        dsimp only
        split
        · rfl
        · rfl
